import Mathlib

/-!
Shallow embedding of `src/license_server.py`: a FastAPI license server built
on PASETO v4 local tokens and a SQLite table `licenses`.

Modelling conventions:
* Timestamps (`datetime.utcnow()` values) are integers counting seconds; a
  Python `timedelta(days = d)` is `d * 86400` seconds and `timedelta.days`
  is floor division by 86400 (`Int.fdiv`), matching Python's semantics.
* The PASETO primitive is modelled symbolically: `pyseto.encode` seals the
  claims under a key identifier and a footer; `pyseto.decode` succeeds
  exactly when the same key and footer are presented, and recovers the
  claims.  Any other byte string (corruption, tampering, other formats) is
  `Token.garbage` and never decodes.
* SQLite TIMESTAMP columns hold ISO-8601 text.  `StoredTime` models such a
  cell: `iso t` is the well-formed serialization of timestamp `t` (what
  Python's `datetime.isoformat` writes and `datetime.fromisoformat` reads
  back), `malformed s` is any other text, on which `fromisoformat` raises.
* The store is the list of rows of the `licenses` table in rowid order;
  SQL `UPDATE ... WHERE key = ?` maps over all matching rows, `SELECT ...
  WHERE key = ?` with `fetchone` takes the first matching row.
* `sqlite3.connect` may fail when the database file is unavailable; the
  flag `dbOk` passed to `validate_license` injects that environment
  failure (`false` = the connect call raises `OperationalError`).
* Python exceptions are `Except String`; the bare `except Exception`
  handler of `/api/validate` is the wrapper `validate_license` around
  `validate_license_body`, and FastAPI `HTTPException` is
  `HTTPExceptionModel`.
-/

namespace LicenseServer

/-- UTC timestamps, in whole seconds. -/
abbrev Timestamp := Int

/-- The payload of a PASETO license token: `{"sub", "plan", "exp", "iat"}`
from `generate_paseto_token`. -/
structure Claims where
  sub : String
  plan : String
  exp : Timestamp
  iat : Timestamp
deriving DecidableEq, Repr

/-- A PASETO v4 local token, symbolically: either a blob sealed under some
key (identified by a number) and footer, carrying its claims and the
scheme's nonce, or any other text, which never verifies. -/
inductive Token where
  | sealed (keyId : Int) (footer : String) (claims : Claims) (nonce : Int)
  | garbage (text : String)
deriving DecidableEq, Repr

/-- The process-wide `SECRET_KEY` (`Key.new(version=4, purpose="local", ...)`),
as an abstract key identifier. -/
def SECRET_KEY : Int := 0

/-- The fixed context footer `b"license-v1"` bound into every token. -/
def licenseFooter : String := "license-v1"

/-- `pyseto.encode(key, payload, footer)`. -/
def pyseto_encode (keyId : Int) (footer : String) (payload : Claims) (nonce : Int) : Token :=
  Token.sealed keyId footer payload nonce

/-- `pyseto.decode(key, token, footer)`: succeeds exactly when the token was
sealed under the same key and the same footer; wrong key, wrong footer, and
garbage all raise. -/
def pyseto_decode (keyId : Int) (footer : String) (t : Token) : Except String Claims :=
  match t with
  | Token.sealed k f c _ =>
      if k = keyId ∧ f = footer then Except.ok c
      else Except.error "pyseto verification failed"
  | Token.garbage _ => Except.error "pyseto decode failed"

/-- `generate_paseto_token(username, plan, expires_at)`: seals
`{sub, plan, exp, iat = utcnow()}` under `SECRET_KEY` with footer
`"license-v1"`. -/
def generate_paseto_token (username plan : String) (expires_at now : Timestamp)
    (nonce : Int) : Token :=
  pyseto_encode SECRET_KEY licenseFooter
    { sub := username, plan := plan, exp := expires_at, iat := now } nonce

/-- `verify_paseto_token(token)`: decodes under `SECRET_KEY` and the fixed
footer, rewrapping any decode failure as `ValueError("Invalid token: ...")`. -/
def verify_paseto_token (token : Token) : Except String Claims :=
  match pyseto_decode SECRET_KEY licenseFooter token with
  | Except.ok c => Except.ok c
  | Except.error e => Except.error ("Invalid token: " ++ e)

/-- A TIMESTAMP cell of the SQLite table: well-formed ISO text for a
timestamp, or malformed text on which parsing raises. -/
inductive StoredTime where
  | iso (t : Timestamp)
  | malformed (text : String)
deriving DecidableEq, Repr

/-- `datetime.isoformat` as used when writing timestamps to the table. -/
def isoformat (t : Timestamp) : StoredTime := StoredTime.iso t

/-- `datetime.fromisoformat` on a stored cell: raises `ValueError` on
malformed text. -/
def fromisoformat : StoredTime → Except String Timestamp
  | StoredTime.iso t => Except.ok t
  | StoredTime.malformed s => Except.error ("Invalid isoformat string: " ++ s)

/-- One row of the `licenses` table (the autoincrement `id` is the list
position). -/
structure LicenseRecord where
  key : Token
  username : String
  plan : String
  created_at : StoredTime
  expires_at : StoredTime
  active : Bool
  last_check : Option StoredTime
deriving DecidableEq, Repr

/-- The `licenses` table, rows in rowid order. -/
structure Store where
  recs : List LicenseRecord
deriving DecidableEq, Repr

/-- `SELECT ... FROM licenses WHERE key = ?` followed by `fetchone()`. -/
def find_license (st : Store) (key : Token) : Option LicenseRecord :=
  st.recs.find? (fun r => decide (r.key = key))

/-- `INSERT INTO licenses ...`: the UNIQUE constraint on `key` raises
`IntegrityError` when a row with that key exists. -/
def db_insert (st : Store) (r : LicenseRecord) : Except String Store :=
  if st.recs.any (fun x => decide (x.key = r.key)) then
    Except.error "UNIQUE constraint failed: licenses.key"
  else
    Except.ok { recs := st.recs ++ [r] }

/-- `UPDATE licenses SET ... WHERE key = ?`: applies `f` to every row whose
key matches. -/
def update_where (st : Store) (key : Token) (f : LicenseRecord → LicenseRecord) : Store :=
  { recs := st.recs.map (fun r => if r.key = key then f r else r) }

/-- `UPDATE licenses SET last_check = ? WHERE key = ?`. -/
def touch_last_check (st : Store) (key : Token) (now : Timestamp) : Store :=
  update_where st key (fun r => { r with last_check := some (isoformat now) })

/-- `UPDATE licenses SET active = ? WHERE key = ?`. -/
def set_active (st : Store) (key : Token) (a : Bool) : Store :=
  update_where st key (fun r => { r with active := a })

/-- `UPDATE licenses SET expires_at = ? WHERE key = ?`. -/
def set_expiry (st : Store) (key : Token) (e : Timestamp) : Store :=
  update_where st key (fun r => { r with expires_at := isoformat e })

/-- The JSON body returned by `/api/validate`: either
`{"valid": true, "username", "plan", "days_remaining", "expires_at"}` or
`{"valid": false, "error": ...}`.  The `expires_at` display string
(`strftime("%Y-%m-%d")`) is carried as the underlying timestamp. -/
inductive ValidationOutcome where
  | valid (username plan : String) (days_remaining : Int) (expires_at : Timestamp)
  | invalid (error : String)
deriving DecidableEq, Repr

/-- The generic message returned by the bare exception handler of
`/api/validate`: "Неверный ключ лицензии" (invalid license key). -/
def MSG_INVALID_KEY : String := "Неверный ключ лицензии"

/-- "Лицензия деактивирована администратором" (deactivated by administrator). -/
def MSG_DEACTIVATED : String := "Лицензия деактивирована администратором"

/-- "Срок действия лицензии истёк" (license expired). -/
def MSG_EXPIRED : String := "Срок действия лицензии истёк"

/-- `(expires_at - datetime.utcnow()).days`: `timedelta.days` floors. -/
def days_between (expires_at now : Timestamp) : Int :=
  Int.fdiv (expires_at - now) 86400

/-- The common tail of `validate_license` (lines 139-161): the active check,
then the strict expiry check, then the valid response. -/
def license_checks (active : Bool) (expires_at : Timestamp) (username plan : String)
    (now : Timestamp) : ValidationOutcome :=
  if active = false then ValidationOutcome.invalid MSG_DEACTIVATED
  else if now > expires_at then ValidationOutcome.invalid MSG_EXPIRED
  else ValidationOutcome.valid username plan (days_between expires_at now) expires_at

/-- The `try` block of `/api/validate`: decode the token, look the key up,
register it on first use (DB defaults fill `created_at = now`, `active = 1`)
or refresh `last_check`, then run the active and expiry checks.  Errors are
the exceptions the block can raise; the store travels alongside the
outcome. -/
def validate_license_body (dbOk : Bool) (st : Store) (key : Token) (now : Timestamp) :
    Except String (ValidationOutcome × Store) := do
  let payload ← verify_paseto_token key
  let username := payload.sub
  let plan := payload.plan
  if dbOk = false then
    throw "unable to open database file"
  match find_license st key with
  | none => do
      let expires_at := payload.exp
      let st2 ← db_insert st
        { key := key, username := username, plan := plan,
          created_at := isoformat now, expires_at := isoformat expires_at,
          active := true, last_check := some (isoformat now) }
      pure (license_checks true expires_at username plan now, st2)
  | some r => do
      let active := r.active
      let expires_at ← fromisoformat r.expires_at
      let st2 := touch_last_check st key now
      pure (license_checks active expires_at username plan now, st2)

/-- `/api/validate`: the whole handler, whose `except Exception` clause
collapses every raised error into the generic invalid-key response.  All
raise points of the body precede any committed write, so the store is
unchanged on the error path. -/
def validate_license (dbOk : Bool) (st : Store) (key : Token) (now : Timestamp) :
    ValidationOutcome × Store :=
  match validate_license_body dbOk st key now with
  | Except.ok res => res
  | Except.error _ => (ValidationOutcome.invalid MSG_INVALID_KEY, st)

/-- Request body of `/admin/create`. -/
structure License where
  username : String
  plan : String
  days : Int
deriving DecidableEq, Repr

/-- Request body of `/admin/update`. -/
structure LicenseUpdate where
  key : Token
  days : Option Int
  active : Option Bool
deriving DecidableEq, Repr

/-- `fastapi.HTTPException(status_code, detail)`. -/
structure HTTPExceptionModel where
  status_code : Int
  detail : String
deriving DecidableEq, Repr

/-- The JSON body returned by a successful `/admin/create`. -/
structure AdminCreateResponse where
  success : Bool
  key : Token
  username : String
  plan : String
  expires_at : Timestamp
deriving DecidableEq, Repr

/-- `/admin/create`: mint a token expiring `days` days from now, insert its
row (DB defaults: `created_at = now`, `active = 1`, `last_check` NULL); any
failure is caught and re-raised as `HTTPException(500, str(e))`. -/
def admin_create_license (st : Store) (lic : License) (now : Timestamp) (nonce : Int) :
    Except HTTPExceptionModel (AdminCreateResponse × Store) :=
  let expires_at := now + lic.days * 86400
  let key := generate_paseto_token lic.username lic.plan expires_at now nonce
  match db_insert st
    { key := key, username := lic.username, plan := lic.plan,
      created_at := isoformat now, expires_at := isoformat expires_at,
      active := true, last_check := none } with
  | Except.ok st2 =>
      Except.ok ({ success := true, key := key, username := lic.username,
                   plan := lic.plan, expires_at := expires_at }, st2)
  | Except.error e => Except.error { status_code := 500, detail := e }

/-- `/admin/update`: optionally set `active`, then optionally extend
`expires_at` by `days * 86400` seconds on top of the currently stored
expiry (a missing key makes each step a no-op).  The endpoint has no
handler, so a parse failure propagates (uncommitted work rolls back);
otherwise it answers `{"success": true}`. -/
def admin_update_license (st : Store) (u : LicenseUpdate) : Except String (Store × Bool) := do
  let st1 :=
    match u.active with
    | some a => set_active st u.key a
    | none => st
  let st2 ←
    match u.days with
    | some d =>
        match find_license st1 u.key with
        | some r => do
            let current_expires ← fromisoformat r.expires_at
            let new_expires := current_expires + d * 86400
            pure (set_expiry st1 u.key new_expires)
        | none => pure st1
    | none => pure st1
  return (st2, true)

/-! ### Concrete fixtures used for counterexamples and witnesses -/

/-- An empty `licenses` table. -/
def emptyStore : Store := { recs := [] }

/-- Sample claims: alice / Pro, embedded expiry 100, issued at 50. -/
def claimsAlice : Claims := { sub := "alice", plan := "Pro", exp := 100, iat := 50 }

/-- The token sealing `claimsAlice` under the server key and footer. -/
def tokAlice : Token := generate_paseto_token "alice" "Pro" 100 50 0

/-- A registered row for `tokAlice` whose authoritative (store) expiry is 1000. -/
def recAlice : LicenseRecord :=
  { key := tokAlice, username := "alice", plan := "Pro", created_at := isoformat 10,
    expires_at := isoformat 1000, active := true, last_check := none }

/-- A one-row table holding `recAlice`. -/
def storeAlice : Store := { recs := [recAlice] }

/-- `recAlice` after an administrator deactivation. -/
def recAliceOff : LicenseRecord := { recAlice with active := false }

/-- A one-row table holding the deactivated row. -/
def storeAliceOff : Store := { recs := [recAliceOff] }

/-- `recAlice` with a corrupted `expires_at` cell. -/
def recAliceBad : LicenseRecord :=
  { recAlice with expires_at := StoredTime.malformed "not-a-date" }

/-- A one-row table holding the corrupted row. -/
def storeAliceBad : Store := { recs := [recAliceBad] }

/-- Sample `/admin/create` request: bob / Basic for 2 days. -/
def licBob : License := { username := "bob", plan := "Basic", days := 2 }

/-- The row `/admin/create` would mint for `licBob` at time 0 with nonce 7. -/
def recBob : LicenseRecord :=
  { key := generate_paseto_token "bob" "Basic" (0 + 2 * 86400) 0 7, username := "bob",
    plan := "Basic", created_at := isoformat 0, expires_at := isoformat (0 + 2 * 86400),
    active := true, last_check := none }

/-- A one-row table already holding `recBob`. -/
def storeBob : Store := { recs := [recBob] }

/-! ### Store lemmas -/

theorem find_license_eq_none (st : Store) (k : Token) :
    find_license st k = none ↔ ∀ r ∈ st.recs, r.key ≠ k := by
  simp [find_license]

theorem update_where_absent (st : Store) (k : Token) (f : LicenseRecord → LicenseRecord)
    (h : find_license st k = none) : update_where st k f = st := by
  have h2 : ∀ r ∈ st.recs, r.key ≠ k := (find_license_eq_none st k).mp h
  unfold update_where
  cases st with
  | mk recs =>
      simp only [Store.mk.injEq]
      calc recs.map (fun r => if r.key = k then f r else r)
            = recs.map id := List.map_congr_left (by
              intro a ha
              simp [h2 a ha])
        _ = recs := List.map_id recs

theorem db_insert_absent (st : Store) (r : LicenseRecord)
    (h : find_license st r.key = none) :
    db_insert st r = Except.ok { recs := st.recs ++ [r] } := by
  have h2 : ∀ x ∈ st.recs, x.key ≠ r.key := (find_license_eq_none st r.key).mp h
  have hany : st.recs.any (fun x => decide (x.key = r.key)) = false := by
    simp only [List.any_eq_false, decide_eq_true_eq]
    exact h2
  unfold db_insert
  rw [hany]
  simp

theorem find_license_update_where (st : Store) (k : Token)
    (f : LicenseRecord → LicenseRecord) (hkeys : ∀ x, (f x).key = x.key) :
    find_license (update_where st k f) k = Option.map f (find_license st k) := by
  unfold find_license update_where
  simp only [List.find?_map]
  have hcomp : ((fun x : LicenseRecord => decide (x.key = k)) ∘
      (fun r => if r.key = k then f r else r)) = fun x : LicenseRecord => decide (x.key = k) := by
    funext x
    by_cases h : x.key = k
    · simp [h, hkeys]
    · simp [h]
  rw [hcomp]
  cases hfind : List.find? (fun r : LicenseRecord => decide (r.key = k)) st.recs with
  | none => rfl
  | some r =>
      have hr0 := List.find?_some (p := fun r : LicenseRecord => decide (r.key = k)) hfind
      have hr : r.key = k := of_decide_eq_true hr0
      simp [hr]

/-! ### Reduction lemmas for the validate handler body -/

theorem validate_body_verify_fail (dbOk : Bool) (st : Store) (key : Token) (now : Timestamp)
    (e : String) (hv : verify_paseto_token key = Except.error e) :
    validate_license_body dbOk st key now = Except.error e := by
  unfold validate_license_body
  rw [hv]
  rfl

theorem validate_body_db_fail (st : Store) (key : Token) (now : Timestamp) (c : Claims)
    (hv : verify_paseto_token key = Except.ok c) :
    validate_license_body false st key now = Except.error "unable to open database file" := by
  unfold validate_license_body
  rw [hv]
  rfl

theorem validate_body_not_found (st : Store) (key : Token) (now : Timestamp) (c : Claims)
    (hv : verify_paseto_token key = Except.ok c) (hf : find_license st key = none) :
    validate_license_body true st key now =
      Except.ok (license_checks true c.exp c.sub c.plan now,
        { recs := st.recs ++
            [{ key := key, username := c.sub, plan := c.plan,
               created_at := isoformat now, expires_at := isoformat c.exp,
               active := true, last_check := some (isoformat now) }] }) := by
  unfold validate_license_body
  rw [hv]
  simp only [Bind.bind, Except.bind, Bool.false_eq_true, if_false, hf]
  rw [db_insert_absent st _ hf]
  rfl

theorem validate_body_found (st : Store) (key : Token) (now : Timestamp) (c : Claims)
    (r : LicenseRecord) (T : Timestamp) (hv : verify_paseto_token key = Except.ok c)
    (hf : find_license st key = some r) (he : r.expires_at = isoformat T) :
    validate_license_body true st key now =
      Except.ok (license_checks r.active T c.sub c.plan now, touch_last_check st key now) := by
  unfold validate_license_body
  rw [hv]
  simp only [Bind.bind, Except.bind, Bool.false_eq_true, if_false, hf, he]
  rfl

theorem validate_body_found_malformed (st : Store) (key : Token) (now : Timestamp) (c : Claims)
    (r : LicenseRecord) (s : String) (hv : verify_paseto_token key = Except.ok c)
    (hf : find_license st key = some r) (he : r.expires_at = StoredTime.malformed s) :
    validate_license_body true st key now =
      Except.error ("Invalid isoformat string: " ++ s) := by
  unfold validate_license_body
  rw [hv]
  simp only [Bind.bind, Except.bind, Bool.false_eq_true, if_false, hf, he]
  rfl

/-! ### Claims -/

/-- Claim C3: for all valid inputs (subject, plan, expiresAt), decoding the
token produced by `generate_paseto_token` succeeds and recovers the same
subject, plan and expiresAt claims (together with the issue time). -/
theorem c3_round_trip (u p : String) (e now : Timestamp) (nz : Int) :
    verify_paseto_token (generate_paseto_token u p e now nz)
      = Except.ok { sub := u, plan := p, exp := e, iat := now } := rfl

/-- Claim C7: whenever decoding the presented token fails (wrong key,
corruption, wrong context, malformed text), `validate_license` does not
surface the error: it returns the one fixed generic invalid-key message and
leaves the store untouched. -/
theorem c7_decode_failure_generic (dbOk : Bool) (st : Store) (key : Token) (now : Timestamp)
    (e : String) (hv : verify_paseto_token key = Except.error e) :
    validate_license dbOk st key now = (ValidationOutcome.invalid MSG_INVALID_KEY, st) := by
  unfold validate_license
  rw [validate_body_verify_fail dbOk st key now e hv]

/-- Witness for `c7_decode_failure_generic`: a malformed token text. -/
theorem c7_decode_failure_generic_witness :
    validate_license true emptyStore (Token.garbage "AAAA") 0
      = (ValidationOutcome.invalid MSG_INVALID_KEY, emptyStore) :=
  c7_decode_failure_generic true emptyStore (Token.garbage "AAAA") 0
    "Invalid token: pyseto decode failed" rfl

/-- Claim C5: a registered record with `active = false` makes
`validate_license` answer the deactivated-by-administrator message for every
current time and every stored expiry: the active check precedes the expiry
check. -/
theorem c5_deactivated (st : Store) (c : Claims) (nz : Int) (r : LicenseRecord)
    (T now : Timestamp)
    (hf : find_license st (pyseto_encode SECRET_KEY licenseFooter c nz) = some r)
    (ha : r.active = false) (he : r.expires_at = isoformat T) :
    (validate_license true st (pyseto_encode SECRET_KEY licenseFooter c nz) now).fst
      = ValidationOutcome.invalid MSG_DEACTIVATED := by
  have hv : verify_paseto_token (pyseto_encode SECRET_KEY licenseFooter c nz)
      = Except.ok c := rfl
  have hb := validate_body_found st _ now c r T hv hf he
  unfold validate_license
  rw [hb]
  simp [license_checks, ha]

/-- Witness for `c5_deactivated`: the deactivated alice row, checked while
500 seconds of the stored 1000-second expiry still remain. -/
theorem c5_deactivated_witness :
    (validate_license true storeAliceOff tokAlice 500).fst
      = ValidationOutcome.invalid MSG_DEACTIVATED :=
  c5_deactivated storeAliceOff claimsAlice 0 recAliceOff 1000 500 (by decide) rfl rfl

/-- Claim C1, counterexample: `tokAlice` is cryptographically valid and has
no record in the empty store; validating it at time 200 (past its embedded
expiry 100) does register it, but returns the EXPIRED outcome, not a valid
one — refuting "returns a valid outcome for that call" as stated. -/
theorem c1_counterexample :
    find_license emptyStore tokAlice = none ∧
    (validate_license true emptyStore tokAlice 200).snd.recs.length = 1 ∧
    (validate_license true emptyStore tokAlice 200).fst
      = ValidationOutcome.invalid MSG_EXPIRED := by
  refine ⟨rfl, rfl, ?_⟩
  rfl

/-- Claim C1 (amended): validating a cryptographically valid,
never-before-seen token always registers a new record built from the
decoded claims (username, plan, decoded expiresAt as authoritative expiry,
`active = true`, `created_at = now`), and the call itself returns a valid
outcome provided `now` has not passed the decoded expiresAt; if the decoded
expiry has already passed, the record is still registered but the call
reports the license expired. -/
theorem c1_first_use_registration (st : Store) (u p : String) (e i : Timestamp) (nz : Int)
    (now : Timestamp)
    (hf : find_license st (generate_paseto_token u p e i nz) = none) :
    (validate_license true st (generate_paseto_token u p e i nz) now).snd.recs
      = st.recs ++
        [{ key := generate_paseto_token u p e i nz, username := u, plan := p,
           created_at := isoformat now, expires_at := isoformat e,
           active := true, last_check := some (isoformat now) }] ∧
    (now ≤ e →
      (validate_license true st (generate_paseto_token u p e i nz) now).fst
        = ValidationOutcome.valid u p (days_between e now) e) ∧
    (e < now →
      (validate_license true st (generate_paseto_token u p e i nz) now).fst
        = ValidationOutcome.invalid MSG_EXPIRED) := by
  have hv : verify_paseto_token (generate_paseto_token u p e i nz)
      = Except.ok { sub := u, plan := p, exp := e, iat := i } := rfl
  have hb := validate_body_not_found st (generate_paseto_token u p e i nz) now _ hv hf
  unfold validate_license
  rw [hb]
  refine ⟨rfl, ?_, ?_⟩
  · intro hle
    have hgt : ¬ (now > e) := not_lt.mpr hle
    simp [license_checks, hgt]
  · intro hlt
    simp [license_checks, hlt]

/-- Witness for `c1_first_use_registration`: validating `tokAlice` against
the empty store at time 60 (before its embedded expiry 100) succeeds. -/
theorem c1_first_use_registration_witness :
    (validate_license true emptyStore tokAlice 60).fst
      = ValidationOutcome.valid "alice" "Pro" 0 100 :=
  (c1_first_use_registration emptyStore "alice" "Pro" 100 50 0 60 (by decide)).2.1
    (by decide)

/-- Claim C2, counterexample: the alice row is registered with stored expiry
1000 and validated at exactly `now = 1000`; the call returns a VALID
outcome (with 0 days remaining), not the expired one — refuting "a call at
exactly now == expiresAt is treated as expired". -/
theorem c2_counterexample :
    (validate_license true storeAlice tokAlice 1000).fst
      = ValidationOutcome.valid "alice" "Pro" 0 1000 ∧
    (validate_license true storeAlice tokAlice 1000).fst
      ≠ ValidationOutcome.invalid MSG_EXPIRED := by
  refine ⟨rfl, ?_⟩
  decide

/-- Claim C2 (amended): for a registered, active record the expired outcome
is produced exactly when `now > expiresAt` (the store's field); at exactly
`now = expiresAt` the call is still treated as valid, with 0 days
remaining. -/
theorem c2_expiry_boundary (st : Store) (c : Claims) (nz : Int) (r : LicenseRecord)
    (T now : Timestamp)
    (hf : find_license st (pyseto_encode SECRET_KEY licenseFooter c nz) = some r)
    (ha : r.active = true) (he : r.expires_at = isoformat T) :
    ((validate_license true st (pyseto_encode SECRET_KEY licenseFooter c nz) now).fst
        = ValidationOutcome.invalid MSG_EXPIRED ↔ T < now) ∧
    (now = T →
      (validate_license true st (pyseto_encode SECRET_KEY licenseFooter c nz) now).fst
        = ValidationOutcome.valid c.sub c.plan 0 T) := by
  have hv : verify_paseto_token (pyseto_encode SECRET_KEY licenseFooter c nz)
      = Except.ok c := rfl
  have hb := validate_body_found st _ now c r T hv hf he
  have hfst : (validate_license true st (pyseto_encode SECRET_KEY licenseFooter c nz) now).fst
      = license_checks r.active T c.sub c.plan now := by
    unfold validate_license
    rw [hb]
  rw [hfst]
  constructor
  · by_cases hlt : T < now
    · simp [license_checks, ha, hlt]
    · simp only [license_checks, ha, Bool.true_eq_false, if_false, gt_iff_lt, hlt, iff_false]
      simp
  · intro hnow
    subst hnow
    have hirr : ¬ (now > now) := lt_irrefl now
    simp [license_checks, ha, hirr, days_between]

/-- Witness for `c2_expiry_boundary`: the alice row (stored expiry 1000)
checked at time 2000 reports the license expired. -/
theorem c2_expiry_boundary_witness :
    (validate_license true storeAlice tokAlice 2000).fst
      = ValidationOutcome.invalid MSG_EXPIRED :=
  (c2_expiry_boundary storeAlice claimsAlice 0 recAlice 1000 2000
    (by decide) rfl rfl).1.mpr (by decide)

theorem admin_update_days_eq (st : Store) (k : Token) (d : Int) (r : LicenseRecord)
    (T : Timestamp) (hf : find_license st k = some r) (he : r.expires_at = isoformat T) :
    admin_update_license st { key := k, days := some d, active := none }
      = Except.ok (set_expiry st k (T + d * 86400), true) := by
  unfold admin_update_license
  simp only [Bind.bind, Except.bind, hf, he]
  rfl

theorem find_license_set_expiry (st : Store) (k : Token) (e : Timestamp) (r : LicenseRecord)
    (hf : find_license st k = some r) :
    find_license (set_expiry st k e) k = some { r with expires_at := isoformat e } := by
  unfold set_expiry
  rw [find_license_update_where st k
    (fun x => { x with expires_at := isoformat e }) (fun x => rfl), hf]
  rfl

/-- Claim C4: `/admin/update` with a `days` field adds `days` to the expiry
currently stored for the key (it does not reset it to now-based expiry), so
two successive 30-day extensions of a record whose stored expiry is `T`
leave its stored expiry at `T + 60` days. -/
theorem c4_additive_extension (st : Store) (k : Token) (r : LicenseRecord) (T : Timestamp)
    (d : Int) (hf : find_license st k = some r) (he : r.expires_at = isoformat T) :
    (admin_update_license st { key := k, days := some d, active := none }
        = Except.ok (set_expiry st k (T + d * 86400), true) ∧
      find_license (set_expiry st k (T + d * 86400)) k
        = some { r with expires_at := isoformat (T + d * 86400) }) ∧
    ∀ st1 st2 : Store,
      admin_update_license st { key := k, days := some 30, active := none }
          = Except.ok (st1, true) →
      admin_update_license st1 { key := k, days := some 30, active := none }
          = Except.ok (st2, true) →
      find_license st2 k = some { r with expires_at := isoformat (T + 60 * 86400) } := by
  refine ⟨⟨admin_update_days_eq st k d r T hf he,
           find_license_set_expiry st k (T + d * 86400) r hf⟩, ?_⟩
  intro st1 st2 hu1 hu2
  rw [admin_update_days_eq st k 30 r T hf he] at hu1
  simp only [Except.ok.injEq, Prod.mk.injEq, and_true] at hu1
  subst hu1
  have hf1 := find_license_set_expiry st k (T + 30 * 86400) r hf
  rw [admin_update_days_eq (set_expiry st k (T + 30 * 86400)) k 30 _ (T + 30 * 86400) hf1 rfl]
    at hu2
  simp only [Except.ok.injEq, Prod.mk.injEq, and_true] at hu2
  subst hu2
  have h3 := find_license_set_expiry (set_expiry st k (T + 30 * 86400)) k
    (T + 30 * 86400 + 30 * 86400) _ hf1
  have harith : T + 30 * 86400 + 30 * 86400 = T + 60 * 86400 := by ring
  rw [harith] at h3
  rw [harith]
  exact h3

/-- Witness for `c4_additive_extension`: extending the alice row (stored
expiry 1000) by 5 days moves its stored expiry to `1000 + 5 * 86400`. -/
theorem c4_additive_extension_witness :
    admin_update_license storeAlice { key := tokAlice, days := some 5, active := none }
      = Except.ok (set_expiry storeAlice tokAlice (1000 + 5 * 86400), true) :=
  (c4_additive_extension storeAlice tokAlice recAlice 1000 5 (by decide) rfl).1.1

/-- Claim C6: `/admin/update` on a key that has no record — whatever
combination of `days` and `active` the request carries — leaves the store
exactly as it was and still answers success rather than an error. -/
theorem c6_update_absent_noop (st : Store) (u : LicenseUpdate)
    (h : find_license st u.key = none) :
    admin_update_license st u = Except.ok (st, true) := by
  obtain ⟨k, days, act⟩ := u
  have hset : ∀ a, set_active st k a = st := fun a => update_where_absent st k _ h
  unfold admin_update_license
  cases act with
  | none =>
      cases days with
      | none => rfl
      | some d =>
          simp only [Bind.bind, Except.bind, h]
          rfl
  | some a =>
      cases days with
      | none =>
          simp only [hset]
          rfl
      | some d =>
          simp only [hset, Bind.bind, Except.bind, h]
          rfl

/-- Witness for `c6_update_absent_noop`: deactivating and extending an
unknown key on the empty store changes nothing and reports success. -/
theorem c6_update_absent_noop_witness :
    admin_update_license emptyStore
      { key := tokAlice, days := some 30, active := some false }
      = Except.ok (emptyStore, true) :=
  c6_update_absent_noop emptyStore
    { key := tokAlice, days := some 30, active := some false } (by decide)

/-- Claim C8: inserting a row whose key already exists fails with the
UNIQUE-constraint (duplicate key) error, and `/admin/create` turns exactly
that failure into a structured `HTTPException` with status 500 instead of
absorbing it. -/
theorem c8_duplicate_key (st : Store) (lic : License) (now : Timestamp) (nz : Int)
    (r0 : LicenseRecord) (hmem : r0 ∈ st.recs)
    (hkey : r0.key
      = generate_paseto_token lic.username lic.plan (now + lic.days * 86400) now nz) :
    (∀ rec : LicenseRecord, rec.key = r0.key →
        db_insert st rec = Except.error "UNIQUE constraint failed: licenses.key") ∧
    admin_create_license st lic now nz
      = Except.error { status_code := 500,
                       detail := "UNIQUE constraint failed: licenses.key" } := by
  have hins : ∀ rec : LicenseRecord, rec.key = r0.key →
      db_insert st rec = Except.error "UNIQUE constraint failed: licenses.key" := by
    intro rec hr
    have hany : st.recs.any (fun x => decide (x.key = rec.key)) = true := by
      simp only [List.any_eq_true]
      exact ⟨r0, hmem, by simp [hr]⟩
    unfold db_insert
    rw [hany]
    rfl
  refine ⟨hins, ?_⟩
  have hrec := hins
    { key := generate_paseto_token lic.username lic.plan (now + lic.days * 86400) now nz,
      username := lic.username, plan := lic.plan, created_at := isoformat now,
      expires_at := isoformat (now + lic.days * 86400), active := true,
      last_check := none } hkey.symm
  unfold admin_create_license
  simp only [hrec]

/-- Witness for `c8_duplicate_key`: re-creating bob's license when its row
is already present yields the 500 error. -/
theorem c8_duplicate_key_witness :
    admin_create_license storeBob licBob 0 7
      = Except.error { status_code := 500,
                       detail := "UNIQUE constraint failed: licenses.key" } :=
  (c8_duplicate_key storeBob licBob 0 7 recBob (by decide) rfl).2

/-- Claim C9: validating a token whose key is already registered rewrites
the table by a per-row function that is the identity on every row whose
key differs from the presented one (those rows are unchanged in full,
`last_check` included), and that can only touch `last_check` on the
matching row: every row keeps its key, username, plan, created_at,
expires_at and active flag, and no row is added or removed.  This holds on
every path (success, db failure, bad token, malformed stored expiry). -/
theorem c9_validate_frame (dbOk : Bool) (st : Store) (key : Token) (now : Timestamp)
    (r : LicenseRecord) (hf : find_license st key = some r) :
    ∃ f : LicenseRecord → LicenseRecord,
      (validate_license dbOk st key now).snd.recs = st.recs.map f ∧
      (∀ x : LicenseRecord, x.key ≠ key → f x = x) ∧
      ∀ x : LicenseRecord, (f x).key = x.key ∧ (f x).username = x.username ∧
        (f x).plan = x.plan ∧ (f x).created_at = x.created_at ∧
        (f x).expires_at = x.expires_at ∧ (f x).active = x.active := by
  have hid : ∀ x : LicenseRecord, (id x).key = x.key ∧ (id x).username = x.username ∧
      (id x).plan = x.plan ∧ (id x).created_at = x.created_at ∧
      (id x).expires_at = x.expires_at ∧ (id x).active = x.active :=
    fun x => ⟨rfl, rfl, rfl, rfl, rfl, rfl⟩
  cases hv : verify_paseto_token key with
  | error e =>
      refine ⟨id, ?_, fun x _ => rfl, hid⟩
      unfold validate_license
      rw [validate_body_verify_fail dbOk st key now e hv]
      simp
  | ok c =>
      cases dbOk with
      | false =>
          refine ⟨id, ?_, fun x _ => rfl, hid⟩
          unfold validate_license
          rw [validate_body_db_fail st key now c hv]
          simp
      | true =>
          cases he : r.expires_at with
          | malformed s =>
              refine ⟨id, ?_, fun x _ => rfl, hid⟩
              unfold validate_license
              rw [validate_body_found_malformed st key now c r s hv hf he]
              simp
          | iso T =>
              refine ⟨fun x => if x.key = key
                  then { x with last_check := some (isoformat now) } else x, ?_, ?_, ?_⟩
              · unfold validate_license
                rw [validate_body_found st key now c r T hv hf he]
                rfl
              · intro x hx
                simp [hx]
              · intro x
                by_cases hx : x.key = key
                · simp [hx]
                · simp [hx]

/-- Witness for `c9_validate_frame`: a successful re-validation of the
alice row at time 500. -/
theorem c9_validate_frame_witness :
    ∃ f : LicenseRecord → LicenseRecord,
      (validate_license true storeAlice tokAlice 500).snd.recs = storeAlice.recs.map f ∧
      (∀ x : LicenseRecord, x.key ≠ tokAlice → f x = x) ∧
      ∀ x : LicenseRecord, (f x).key = x.key ∧ (f x).username = x.username ∧
        (f x).plan = x.plan ∧ (f x).created_at = x.created_at ∧
        (f x).expires_at = x.expires_at ∧ (f x).active = x.active :=
  c9_validate_frame true storeAlice tokAlice 500 recAlice (by decide)

/-- Claim C10: the bare exception handler of `/api/validate` maps EVERY
failure of the handler body to the one generic invalid-license response —
and both a database-connection failure and a malformed stored expiry really
do make the body fail, so a caller cannot tell a store failure from a bad
token. -/
theorem c10_failure_collapse :
    (∀ (dbOk : Bool) (st : Store) (key : Token) (now : Timestamp) (e : String),
        validate_license_body dbOk st key now = Except.error e →
        validate_license dbOk st key now
          = (ValidationOutcome.invalid MSG_INVALID_KEY, st)) ∧
    (∀ (st : Store) (c : Claims) (nz : Int) (now : Timestamp),
        validate_license_body false st (pyseto_encode SECRET_KEY licenseFooter c nz) now
          = Except.error "unable to open database file") ∧
    (∀ (st : Store) (c : Claims) (nz : Int) (r : LicenseRecord) (s : String)
        (now : Timestamp),
        find_license st (pyseto_encode SECRET_KEY licenseFooter c nz) = some r →
        r.expires_at = StoredTime.malformed s →
        validate_license_body true st (pyseto_encode SECRET_KEY licenseFooter c nz) now
          = Except.error ("Invalid isoformat string: " ++ s)) := by
  refine ⟨?_, ?_, ?_⟩
  · intro dbOk st key now e hb
    unfold validate_license
    rw [hb]
  · intro st c nz now
    exact validate_body_db_fail st (pyseto_encode SECRET_KEY licenseFooter c nz) now c rfl
  · intro st c nz r s now hf he
    exact validate_body_found_malformed st (pyseto_encode SECRET_KEY licenseFooter c nz)
      now c r s rfl hf he

/-- Witness for `c10_failure_collapse`: the alice row with a corrupted
stored expiry makes the body raise, and the handler answers the same
generic invalid-key message a bad token would get. -/
theorem c10_failure_collapse_witness :
    validate_license true storeAliceBad tokAlice 500
      = (ValidationOutcome.invalid MSG_INVALID_KEY, storeAliceBad) :=
  c10_failure_collapse.1 true storeAliceBad tokAlice 500
    "Invalid isoformat string: not-a-date"
    (c10_failure_collapse.2.2 storeAliceBad claimsAlice 0 recAliceBad "not-a-date" 500
      (by decide) rfl)

end LicenseServer
